import Mathlib

/-!
Verification of the burger-shop server (src/server.cpp, src/client.cpp).

The shared state of the server consists of the counters `burgersPrepared`
and `burgersServed`, the quota `maxBurgers` and the flag `serverRunning`
(src/server.cpp lines 32-36).  The chef threads mutate it in the locked
section of `chefFunction` (lines 117-121) and the client handlers in the
locked section of `clientHandler` (lines 152-167); these two critical
sections are the only mutators, so an execution of the system is a
sequence of these two atomic steps from the initial state.
-/

namespace BurgerShop

/-- The shared state of the server: `quota` is `maxBurgers`, `produced` is
`burgersPrepared`, `consumed` is `burgersServed`, `running` is
`serverRunning` (src/server.cpp lines 32-36).  The counters are C++ `int`s
whose values stay between 0 and `quota`, so plain integers model them
exactly. -/
structure PoolState where
  quota : Int
  produced : Int
  consumed : Int
  running : Bool
deriving Repr, DecidableEq

/-- The two messages a handler can send to its client: `unitGranted` is the
string "Burger Served" (line 155), `shopClosed` is the string
"No more burgers" (line 162). -/
inductive Response where
  | unitGranted
  | shopClosed
deriving Repr, DecidableEq

/-- The state at server start: counters at 0, `serverRunning` true
(src/server.cpp lines 32-36), quota set to the configured `maxBurgers`. -/
def initState (q : Int) : PoolState :=
  { quota := q, produced := 0, consumed := 0, running := true }

/-- The locked section of `chefFunction` (src/server.cpp lines 117-121):
under the mutex, if `burgersPrepared >= maxBurgers` the chef breaks out of
its loop; otherwise it increments `burgersPrepared`.  The returned boolean
is false exactly when the chef breaks. -/
def chefStep (s : PoolState) : PoolState × Bool :=
  if s.produced ≥ s.quota then (s, false)
  else ({ s with produced := s.produced + 1 }, true)

/-- Outcome of the locked section of `clientHandler`: the new shared state,
the responses sent to this client in order, whether the handler breaks out
of its session loop, whether it blocked on `cv_burger_ready`, and whether a
burger was served to this request. -/
structure ClientStepResult where
  state : PoolState
  responses : List Response
  breakLoop : Bool
  waited : Bool
  served : Bool
deriving Repr, DecidableEq

/-- The locked section of `clientHandler` (src/server.cpp lines 152-167):
under the mutex, if the received payload is exactly "Order" and
`burgersPrepared > burgersServed`, the handler increments `burgersServed`,
sends "Burger Served", and if the new `burgersServed >= maxBurgers` it sets
`serverRunning = false`, wakes all waiters, sends "No more burgers" and
breaks out of the session loop.  Otherwise it waits on the condition
variable and loops again.  Note the code does not re-check `serverRunning`
inside the lock. -/
def clientStep (s : PoolState) (payload : String) : ClientStepResult :=
  if payload = "Order" ∧ s.produced > s.consumed then
    if s.consumed + 1 ≥ s.quota then
      { state := { s with consumed := s.consumed + 1, running := false },
        responses := [Response.unitGranted, Response.shopClosed],
        breakLoop := true, waited := false, served := true }
    else
      { state := { s with consumed := s.consumed + 1 },
        responses := [Response.unitGranted],
        breakLoop := false, waited := false, served := true }
  else
    { state := s, responses := [], breakLoop := false, waited := true,
      served := false }

/-- Outcome of one full iteration of the `clientHandler` while-loop:
the shared state afterwards, the responses sent during the iteration,
whether the session loop continues, the handler-local `ordersProcessed`
afterwards, and whether the handler blocked on the condition variable. -/
structure IterResult where
  state : PoolState
  responses : List Response
  continues : Bool
  ordersProcessed : Int
  waited : Bool
deriving Repr, DecidableEq

/-- One iteration of the `clientHandler` loop (src/server.cpp lines
139-168) for a handler whose local counter is `ordersProcessed`: the loop
condition `serverRunning && ordersProcessed < maxBurgers` is tested first;
then `recv` returns `bytesReceived` bytes carrying `payload`; a result
`<= 0` (disconnect or error) breaks out before the lock is taken;
otherwise the locked section `clientStep` runs. -/
def handlerIter (s : PoolState) (ordersProcessed : Int) (bytesReceived : Int)
    (payload : String) : IterResult :=
  if s.running = true ∧ ordersProcessed < s.quota then
    if bytesReceived ≤ 0 then
      { state := s, responses := [], continues := false,
        ordersProcessed := ordersProcessed, waited := false }
    else
      { state := (clientStep s payload).state,
        responses := (clientStep s payload).responses,
        continues := !(clientStep s payload).breakLoop,
        ordersProcessed := if (clientStep s payload).served then
                             ordersProcessed + 1
                           else ordersProcessed,
        waited := (clientStep s payload).waited }
  else
    { state := s, responses := [], continues := false,
      ordersProcessed := ordersProcessed, waited := false }

/-- A whole session of `clientHandler`, viewed without interference from
other threads: the handler consumes the events (recv result, payload) in
order, one per loop iteration, until an iteration ends the loop;
returns the final shared state and all responses sent on the session. -/
def sessionRun (s : PoolState) (ordersProcessed : Int) :
    List (Int × String) → PoolState × List Response
  | [] => (s, [])
  | (r, p) :: rest =>
    if (handlerIter s ordersProcessed r p).continues = true then
      ((sessionRun (handlerIter s ordersProcessed r p).state
          (handlerIter s ordersProcessed r p).ordersProcessed rest).1,
        (handlerIter s ordersProcessed r p).responses ++
          (sessionRun (handlerIter s ordersProcessed r p).state
            (handlerIter s ordersProcessed r p).ordersProcessed rest).2)
    else ((handlerIter s ordersProcessed r p).state,
          (handlerIter s ordersProcessed r p).responses)

/-- The configuration of the server: the quota `maxBurgers` and the number
of chef threads `numChefs` (src/server.cpp lines 34-35; defaults 25 and 2). -/
structure Config where
  maxBurgers : Int
  numChefs : Int
deriving Repr, DecidableEq

/-- How `main` proceeds after command-line handling: either it prints the
usage message and returns 1 before creating any thread, or it starts the
chef threads and the accept loop with the given configuration. -/
inductive MainStart where
  | usageExit
  | startServer (cfg : Config)
deriving Repr, DecidableEq

/-- Command-line handling of `main` (src/server.cpp lines 53-62), with
`args` standing for the `atoi` values of `argv[1..]`: no arguments keeps
the defaults maxBurgers = 25 and numChefs = 2; exactly two arguments
installs them as maxBurgers and numChefs; any other argument count prints
the usage message and returns 1 before any thread is created.  The code
performs no other validation of the values. -/
def mainStart (args : List Int) : MainStart :=
  match args with
  | [] => MainStart.startServer { maxBurgers := 25, numChefs := 2 }
  | [a, b] => MainStart.startServer { maxBurgers := a, numChefs := b }
  | _ => MainStart.usageExit

/-- One atomic step of the system: either a chef runs its locked section,
or a client handler runs its locked section on some received payload.
These are the only mutators of the shared state. -/
inductive Step : PoolState → PoolState → Prop where
  | chef (s : PoolState) : Step s (chefStep s).1
  | client (s : PoolState) (payload : String) :
      Step s (clientStep s payload).state

/-- The states the system can reach from the initial state with quota `q`
by chef steps and client-handler steps. -/
inductive Reachable (q : Int) : PoolState → Prop where
  | init : Reachable q (initState q)
  | step {s t : PoolState} : Reachable q s → Step s t → Reachable q t

/-- The inductive invariant of the shared state: the quota is the
configured one, `0 ≤ consumed ≤ produced ≤ quota`, and the server is
stopped exactly when the quota has been consumed. -/
def Inv (q : Int) (s : PoolState) : Prop :=
  s.quota = q ∧ 0 ≤ s.consumed ∧ s.consumed ≤ s.produced ∧
    s.produced ≤ s.quota ∧ (s.running = false ↔ s.consumed = s.quota)

lemma inv_init (q : Int) (hq : 0 < q) : Inv q (initState q) := by
  refine ⟨rfl, le_refl 0, le_refl 0, le_of_lt hq, ?_⟩
  simp [initState]
  omega

lemma inv_chef {q : Int} {s : PoolState} (h : Inv q s) :
    Inv q (chefStep s).1 := by
  obtain ⟨h1, h2, h3, h4, h5⟩ := h
  unfold chefStep
  by_cases hc : s.produced ≥ s.quota
  · rw [if_pos hc]
    exact ⟨h1, h2, h3, h4, h5⟩
  · rw [if_neg hc]
    refine ⟨h1, h2, by simp; omega, by simp; omega, ?_⟩
    simpa using h5

lemma inv_client {q : Int} {s : PoolState} (payload : String) (h : Inv q s) :
    Inv q (clientStep s payload).state := by
  obtain ⟨h1, h2, h3, h4, h5⟩ := h
  unfold clientStep
  by_cases hg : payload = "Order" ∧ s.produced > s.consumed
  · rw [if_pos hg]
    by_cases he : s.consumed + 1 ≥ s.quota
    · simp only [he, if_pos]
      refine ⟨h1, by simp; omega, by simp; omega, by simp; omega, ?_⟩
      simp
      omega
    · simp only [he, if_neg, ite_false]
      refine ⟨h1, by simp; omega, by simp; omega, by simp; omega, ?_⟩
      simp only
      constructor
      · intro hf
        exact absurd (h5.mp hf) (by omega)
      · intro hc
        omega
  · rw [if_neg hg]
    exact ⟨h1, h2, h3, h4, h5⟩

lemma inv_step {q : Int} {s t : PoolState} (h : Inv q s) (hs : Step s t) :
    Inv q t := by
  cases hs with
  | chef => exact inv_chef h
  | client payload => exact inv_client payload h

lemma reachable_inv {q : Int} {s : PoolState} (hq : 0 < q)
    (h : Reachable q s) : Inv q s := by
  induction h with
  | init => exact inv_init q hq
  | step _ hs ih => exact inv_step ih hs

/-- With quota 1, a chef step from the initial state yields one prepared
burger. -/
lemma step_prepared_one :
    Step (initState 1) (⟨1, 1, 0, true⟩ : PoolState) := by
  have h : (chefStep (initState 1)).1 = (⟨1, 1, 0, true⟩ : PoolState) := by
    decide
  exact h ▸ Step.chef (initState 1)

lemma reachable_prepared_one : Reachable 1 (⟨1, 1, 0, true⟩ : PoolState) :=
  Reachable.step Reachable.init step_prepared_one

/-- Serving the only burger exhausts the quota and stops the server. -/
lemma step_exhausted_one :
    Step (⟨1, 1, 0, true⟩ : PoolState) (⟨1, 1, 1, false⟩ : PoolState) := by
  have h : (clientStep (⟨1, 1, 0, true⟩ : PoolState) "Order").state =
      (⟨1, 1, 1, false⟩ : PoolState) := by decide
  exact h ▸ Step.client (⟨1, 1, 0, true⟩ : PoolState) "Order"

lemma reachable_exhausted_one :
    Reachable 1 (⟨1, 1, 1, false⟩ : PoolState) :=
  Reachable.step reachable_prepared_one step_exhausted_one

/-- C1: in every reachable state of the system (quota fixed at
construction with quota > 0, both counters starting at 0) — hence after
every chef step and every client-handler step —
`0 ≤ consumed ≤ produced ≤ quota` holds. -/
theorem counters_bounded (q : Int) (s : PoolState) (hq : 0 < q)
    (hs : Reachable q s) :
    0 ≤ s.consumed ∧ s.consumed ≤ s.produced ∧ s.produced ≤ s.quota ∧
      s.quota = q := by
  obtain ⟨h1, h2, h3, h4, _⟩ := reachable_inv hq hs
  exact ⟨h2, h3, h4, h1⟩

theorem counters_bounded_witness :
    0 ≤ (⟨1, 1, 0, true⟩ : PoolState).consumed ∧
    (⟨1, 1, 0, true⟩ : PoolState).consumed ≤
      (⟨1, 1, 0, true⟩ : PoolState).produced ∧
    (⟨1, 1, 0, true⟩ : PoolState).produced ≤
      (⟨1, 1, 0, true⟩ : PoolState).quota ∧
    (⟨1, 1, 0, true⟩ : PoolState).quota = 1 :=
  counters_bounded 1 (⟨1, 1, 0, true⟩ : PoolState) (by decide)
    reachable_prepared_one

/-- C2: in every reachable state (quota > 0, `serverRunning` initially
true), `serverRunning = false` holds exactly when `burgersServed` equals
the quota. -/
theorem running_iff_quota_consumed (q : Int) (s : PoolState) (hq : 0 < q)
    (hs : Reachable q s) : s.running = false ↔ s.consumed = q := by
  obtain ⟨h1, _, _, _, h5⟩ := reachable_inv hq hs
  rw [h1] at h5
  exact h5

theorem running_iff_quota_consumed_witness :
    (⟨1, 1, 1, false⟩ : PoolState).running = false ↔
      (⟨1, 1, 1, false⟩ : PoolState).consumed = 1 :=
  running_iff_quota_consumed 1 (⟨1, 1, 1, false⟩ : PoolState) (by decide)
    reachable_exhausted_one

/-- C3: in every reachable state, the locked section of `clientHandler`
on an "Order" request behaves as the spec's `tryConsume`: when the server
is running and `produced > consumed` it increments `consumed` by exactly
one, sets `running = false` exactly when the new `consumed` equals the
quota, and reports success with the "Burger Served" response first;
otherwise it serves nothing, sends nothing, and leaves the whole state
unchanged.  (The code checks only `produced > consumed` under the lock,
but in reachable states `running = false` forces `consumed = quota ≥
produced`, so the two guards agree.) -/
theorem order_step_is_tryConsume (q : Int) (s : PoolState) (hq : 0 < q)
    (hs : Reachable q s) :
    ((s.running = true ∧ s.produced > s.consumed) →
      (clientStep s "Order").state.consumed = s.consumed + 1 ∧
      (clientStep s "Order").state.produced = s.produced ∧
      (clientStep s "Order").state.quota = s.quota ∧
      ((clientStep s "Order").state.running = false ↔
        s.consumed + 1 = s.quota) ∧
      (clientStep s "Order").served = true ∧
      (clientStep s "Order").responses.head? = some Response.unitGranted) ∧
    (¬(s.running = true ∧ s.produced > s.consumed) →
      (clientStep s "Order").state = s ∧
      (clientStep s "Order").served = false ∧
      (clientStep s "Order").responses = []) := by
  obtain ⟨h1, h2, h3, h4, h5⟩ := reachable_inv hq hs
  constructor
  · rintro ⟨hrun, hlt⟩
    unfold clientStep
    rw [if_pos ⟨rfl, hlt⟩]
    by_cases he : s.consumed + 1 ≥ s.quota
    · rw [if_pos he]
      refine ⟨rfl, rfl, rfl, ?_, rfl, rfl⟩
      constructor
      · intro _
        omega
      · intro _
        rfl
    · rw [if_neg he]
      refine ⟨rfl, rfl, rfl, ?_, rfl, rfl⟩
      constructor
      · intro hfalse
        rw [show ({ s with consumed := s.consumed + 1 } :
          PoolState).running = s.running from rfl, hrun] at hfalse
        cases hfalse
      · intro hc
        omega
  · intro hng
    have hle : ¬ s.produced > s.consumed := by
      intro hgt
      rcases Bool.eq_false_or_eq_true s.running with ht | hf
      · exact hng ⟨ht, hgt⟩
      · have hcq := h5.mp hf
        omega
    unfold clientStep
    rw [if_neg (fun hc => hle hc.2)]
    exact ⟨rfl, rfl, rfl⟩

theorem order_step_is_tryConsume_witness :
    (clientStep (⟨1, 1, 0, true⟩ : PoolState) "Order").state.consumed =
      (⟨1, 1, 0, true⟩ : PoolState).consumed + 1 ∧
    (clientStep (⟨1, 1, 0, true⟩ : PoolState) "Order").served = true :=
  have h := (order_step_is_tryConsume 1 (⟨1, 1, 0, true⟩ : PoolState)
    (by decide) reachable_prepared_one).1 ⟨rfl, by decide⟩
  ⟨h.1, h.2.2.2.2.1⟩

/-- C4: the locked section of `chefFunction` behaves as the spec's
`tryProduce`: when `produced < quota` it increments `produced` by exactly
one and the chef keeps looping; when `produced ≥ quota` it leaves the
whole state unchanged and the chef breaks out of its loop; consequently
`produced` never exceeds the quota in any reachable state, however many
chefs run. -/
theorem chef_step_is_tryProduce (q : Int) (s t : PoolState) (hq : 0 < q)
    (ht : Reachable q t) :
    (s.produced < s.quota →
      (chefStep s).1.produced = s.produced + 1 ∧
      (chefStep s).1.consumed = s.consumed ∧
      (chefStep s).1.quota = s.quota ∧
      (chefStep s).1.running = s.running ∧
      (chefStep s).2 = true) ∧
    (s.produced ≥ s.quota → (chefStep s).1 = s ∧ (chefStep s).2 = false) ∧
    t.produced ≤ q := by
  refine ⟨?_, ?_, ?_⟩
  · intro h
    unfold chefStep
    rw [if_neg (by omega)]
    exact ⟨rfl, rfl, rfl, rfl, rfl⟩
  · intro h
    unfold chefStep
    rw [if_pos h]
    exact ⟨rfl, rfl⟩
  · obtain ⟨h1, _, _, h4, _⟩ := reachable_inv hq ht
    omega

theorem chef_step_is_tryProduce_witness :
    (chefStep (initState 1)).1.produced = (initState 1).produced + 1 ∧
    (chefStep (⟨1, 1, 0, true⟩ : PoolState)).2 = false ∧
    (⟨1, 1, 0, true⟩ : PoolState).produced ≤ 1 := by
  have h1 := chef_step_is_tryProduce 1 (initState 1)
    (⟨1, 1, 0, true⟩ : PoolState) (by decide) reachable_prepared_one
  have h2 := chef_step_is_tryProduce 1 (⟨1, 1, 0, true⟩ : PoolState)
    (⟨1, 1, 0, true⟩ : PoolState) (by decide) reachable_prepared_one
  exact ⟨(h1.1 (by decide)).1, (h2.2.1 (by decide)).2, h1.2.2⟩

/-- C9: across every atomic step of every execution, `produced` never
decreases, `consumed` never decreases, and once `running` is false no
step makes it true again. -/
theorem monotone_step (s t : PoolState) (h : Step s t) :
    s.produced ≤ t.produced ∧ s.consumed ≤ t.consumed ∧
    (s.running = false → t.running = false) := by
  cases h with
  | chef =>
    unfold chefStep
    by_cases hc : s.produced ≥ s.quota
    · rw [if_pos hc]
      exact ⟨le_refl _, le_refl _, fun hf => hf⟩
    · rw [if_neg hc]
      exact ⟨by simp, le_refl _, fun hf => hf⟩
  | client payload =>
    unfold clientStep
    by_cases hg : payload = "Order" ∧ s.produced > s.consumed
    · rw [if_pos hg]
      by_cases he : s.consumed + 1 ≥ s.quota
      · rw [if_pos he]
        exact ⟨le_refl _, by simp, fun _ => rfl⟩
      · rw [if_neg he]
        exact ⟨le_refl _, by simp, fun hf => hf⟩
    · rw [if_neg hg]
      exact ⟨le_refl _, le_refl _, fun hf => hf⟩

theorem monotone_step_witness :
    (initState 1).produced ≤ (⟨1, 1, 0, true⟩ : PoolState).produced ∧
    (initState 1).consumed ≤ (⟨1, 1, 0, true⟩ : PoolState).consumed ∧
    ((initState 1).running = false →
      (⟨1, 1, 0, true⟩ : PoolState).running = false) :=
  monotone_step (initState 1) (⟨1, 1, 0, true⟩ : PoolState)
    step_prepared_one

/-- C5 counterexample: the handler does not send exactly one response per
request.  In the reachable state with quota 1 and one prepared burger, the
"Order" request that consumes the final burger receives TWO responses,
"Burger Served" (line 155) followed by "No more burgers" (line 162); and
in the initial state with quota 3 a well-formed "Order" request receives
ZERO responses, because no burger is prepared yet and the handler blocks
on the condition variable instead of answering. -/
theorem two_responses_for_final_order :
    Reachable 1 (⟨1, 1, 0, true⟩ : PoolState) ∧
    (clientStep (⟨1, 1, 0, true⟩ : PoolState) "Order").responses =
      [Response.unitGranted, Response.shopClosed] ∧
    (handlerIter (initState 3) 0 5 "Order").responses = [] :=
  ⟨reachable_prepared_one, by decide, by decide⟩

/-- C5 amended: the locked section of `clientHandler` sends zero, one, or
two responses per request: none when the request is not served (the
handler blocks on the condition variable instead, leaving the state
unchanged); exactly "Burger Served" when it serves a burger short of the
quota; and "Burger Served" followed by "No more burgers" when the served
burger exhausts the quota, in which case the session loop ends, so
"No more burgers" is sent at most once per session and only as its
terminal message. -/
theorem responses_per_request (s : PoolState) (payload : String) :
    ((clientStep s payload).responses = [] ∧
      (clientStep s payload).state = s ∧
      (clientStep s payload).breakLoop = false ∧
      (clientStep s payload).waited = true) ∨
    ((clientStep s payload).responses = [Response.unitGranted] ∧
      (clientStep s payload).breakLoop = false) ∨
    ((clientStep s payload).responses =
        [Response.unitGranted, Response.shopClosed] ∧
      (clientStep s payload).breakLoop = true) := by
  unfold clientStep
  by_cases hg : payload = "Order" ∧ s.produced > s.consumed
  · rw [if_pos hg]
    by_cases he : s.consumed + 1 ≥ s.quota
    · rw [if_pos he]
      right; right
      exact ⟨rfl, rfl⟩
    · rw [if_neg he]
      right; left
      exact ⟨rfl, rfl⟩
  · rw [if_neg hg]
    left
    exact ⟨rfl, rfl, rfl, rfl⟩

/-- C6 counterexample: a handler that observes `serverRunning == false`
does not send "No more burgers".  In the reachable exhausted state
(quota 1, burger served, server stopped) an iteration of the handler loop
— whether the handler just woke from the condition variable or just
received a fresh request — fails the loop condition at line 139 and ends
the session having sent NOTHING. -/
theorem closed_silent_counterexample :
    Reachable 1 (⟨1, 1, 1, false⟩ : PoolState) ∧
    (handlerIter (⟨1, 1, 1, false⟩ : PoolState) 0 5 "Order").responses =
      [] ∧
    (handlerIter (⟨1, 1, 1, false⟩ : PoolState) 0 5 "Order").continues =
      false :=
  ⟨reachable_exhausted_one, by decide, by decide⟩

/-- C6 amended: a handler that observes `serverRunning = false` at its
loop head ends the session without sending any response and without
touching the shared state; the "No more burgers" response is sent only by
the handler whose own grant exhausts the quota, inside the same locked
step as that grant. -/
theorem closed_observation_silent (s : PoolState)
    (ordersProcessed bytesReceived : Int) (payload : String)
    (h : s.running = false) :
    (handlerIter s ordersProcessed bytesReceived payload).responses = [] ∧
    (handlerIter s ordersProcessed bytesReceived payload).continues =
      false ∧
    (handlerIter s ordersProcessed bytesReceived payload).state = s ∧
    (Response.shopClosed ∈ (clientStep s payload).responses →
      (clientStep s payload).state.running = false) := by
  refine ?_
  have hcond : ¬(s.running = true ∧ ordersProcessed < s.quota) := by
    intro hc
    rw [h] at hc
    cases hc.1
  unfold handlerIter
  rw [if_neg hcond]
  refine ⟨rfl, rfl, rfl, ?_⟩
  intro hmem
  unfold clientStep at hmem ⊢
  by_cases hg : payload = "Order" ∧ s.produced > s.consumed
  · rw [if_pos hg] at hmem ⊢
    by_cases he : s.consumed + 1 ≥ s.quota
    · rw [if_pos he]
    · rw [if_neg he] at hmem ⊢
      simp at hmem
  · rw [if_neg hg] at hmem
    simp at hmem

theorem closed_observation_silent_witness :
    (handlerIter (⟨2, 1, 2, false⟩ : PoolState) 0 7 "Order").responses =
      [] ∧
    (handlerIter (⟨2, 1, 2, false⟩ : PoolState) 0 7 "Order").continues =
      false :=
  have h := closed_observation_silent (⟨2, 1, 2, false⟩ : PoolState)
    0 7 "Order" rfl
  ⟨h.1, h.2.1⟩

/-- C7 counterexample: `main` does not reject non-positive configuration
values.  Invoked with MaxBurgers = 0 and NumChefs = 0, command-line
handling accepts both values and the server starts its chef threads and
accept loop; no diagnostic is issued and the process proceeds. -/
theorem nonpositive_config_accepted :
    mainStart [0, 0] =
      MainStart.startServer { maxBurgers := 0, numChefs := 0 } ∧
    mainStart [-5, 2] =
      MainStart.startServer { maxBurgers := -5, numChefs := 2 } := by
  exact ⟨rfl, rfl⟩

/-- C7 amended: the only startup check is on the argument count: with
exactly two arguments `main` accepts them as MaxBurgers and NumChefs
whatever their values, with no arguments it keeps the defaults 25 and 2,
and with any other count it prints the usage message and returns 1 before
starting any chef or handler. -/
theorem startup_checks_arg_count_only (a b : Int) :
    mainStart [a, b] =
      MainStart.startServer { maxBurgers := a, numChefs := b } ∧
    mainStart [] = MainStart.startServer { maxBurgers := 25, numChefs := 2 } ∧
    mainStart [a] = MainStart.usageExit ∧
    mainStart [a, b, a] = MainStart.usageExit :=
  ⟨rfl, rfl, rfl, rfl⟩

/-- C8: when `recv` reports a disconnect (0) or an error (negative), the
handler iteration breaks out of the session loop before taking the lock,
leaving `burgersPrepared`, `burgersServed` and `serverRunning` untouched
and sending nothing. -/
theorem recv_failure_local (s : PoolState)
    (ordersProcessed bytesReceived : Int) (payload : String)
    (hr : bytesReceived ≤ 0) :
    (handlerIter s ordersProcessed bytesReceived payload).state = s ∧
    (handlerIter s ordersProcessed bytesReceived payload).continues =
      false ∧
    (handlerIter s ordersProcessed bytesReceived payload).responses =
      [] := by
  unfold handlerIter
  by_cases hc : s.running = true ∧ ordersProcessed < s.quota
  · rw [if_pos hc, if_pos hr]
    exact ⟨rfl, rfl, rfl⟩
  · rw [if_neg hc]
    exact ⟨rfl, rfl, rfl⟩

theorem recv_failure_local_witness :
    (handlerIter (initState 2) 0 0 "Order").state = initState 2 ∧
    (handlerIter (initState 2) 0 (-1) "Order").state = initState 2 :=
  ⟨(recv_failure_local (initState 2) 0 0 "Order" (by decide)).1,
   (recv_failure_local (initState 2) 0 (-1) "Order" (by decide)).1⟩

/-- C10: a request whose payload is not exactly "Order" never increments
`burgersServed` and receives no response — even when the server is
running and a burger is available — because the handler falls into the
`cv_burger_ready.wait` branch; and after waking, the next loop iteration
calls `recv` again, so the session run simply discards the pending
request and moves to the next event. -/
theorem non_order_request_blocks (s : PoolState) (payload : String)
    (ordersProcessed bytesReceived : Int) (rest : List (Int × String))
    (hp : payload ≠ "Order") :
    (clientStep s payload).state = s ∧
    (clientStep s payload).responses = [] ∧
    (clientStep s payload).waited = true ∧
    (clientStep s payload).served = false ∧
    (s.running = true → ordersProcessed < s.quota → 0 < bytesReceived →
      sessionRun s ordersProcessed ((bytesReceived, payload) :: rest) =
        sessionRun s ordersProcessed rest) := by
  have hg : ¬(payload = "Order" ∧ s.produced > s.consumed) :=
    fun hc => hp hc.1
  have hcs : clientStep s payload =
      { state := s, responses := [], breakLoop := false, waited := true,
        served := false } := by
    unfold clientStep
    rw [if_neg hg]
  refine ⟨by rw [hcs], by rw [hcs], by rw [hcs], by rw [hcs], ?_⟩
  intro hrun hn hr
  have hit : handlerIter s ordersProcessed bytesReceived payload =
      { state := s, responses := [], continues := true,
        ordersProcessed := ordersProcessed, waited := true } := by
    unfold handlerIter
    rw [if_pos ⟨hrun, hn⟩, if_neg (by omega), hcs]
    rfl
  rw [sessionRun, hit]
  simp

theorem non_order_request_blocks_witness :
    (clientStep (⟨2, 1, 0, true⟩ : PoolState) "Eat").state =
      (⟨2, 1, 0, true⟩ : PoolState) ∧
    (clientStep (⟨2, 1, 0, true⟩ : PoolState) "Eat").waited = true ∧
    sessionRun (⟨2, 1, 0, true⟩ : PoolState) 0 [(1, "Eat")] =
      sessionRun (⟨2, 1, 0, true⟩ : PoolState) 0 [] :=
  have h := non_order_request_blocks (⟨2, 1, 0, true⟩ : PoolState) "Eat"
    0 1 [] (by decide)
  ⟨h.1, h.2.2.1, h.2.2.2.2 rfl (by decide) (by decide)⟩

end BurgerShop
